import Mathlib

/-!
Shallow embedding of `src/opendlv-logic-control-differentialsteering.cpp`.

Floating-point values (C++ `float`) are modelled as rationals `ℚ`; the
arithmetic the program performs (subtraction, addition, multiplication,
division, comparisons against the literals `1.0f`, `-1.0f`, and the
constants `0.99f`, `-0.99f`) is exact on the values appearing in the
claims. Division by zero yields `0` in `ℚ` whereas IEEE `float` would give
an infinity or NaN; theorems whose faithfulness depends on the divisor
therefore carry a `speedMax ≠ 0` hypothesis. Sender stamps (`uint32_t`)
are modelled as `ℕ` and the switch state (`int32_t`) as `ℤ`; none of the
comparisons involved can overflow. The messaging bus is modelled by
returning the list of messages passed to `od4.send`, in call order, and
the timestamp `cluon::time::now()` captured once per tick is an opaque
`ℕ` parameter of the periodic callback.
-/

namespace DiffSteer

/-- Immutable configuration derived from the command line
(source lines 42-54). -/
structure Config where
  trackWidth : ℚ
  speedMax : ℚ
  senderStampInput : ℕ
  senderStampLeft : ℕ
  senderStampRight : ℕ
deriving DecidableEq

/-- The mutable command store: the variables `vxRequest` and
`yawRateRequest` of lines 60-61, guarded by `requestMutex` in the
source. -/
structure RequestStore where
  vxRequest : ℚ
  yawRateRequest : ℚ
deriving DecidableEq

/-- Initial values of the command store (lines 60-61: both `0.0f`). -/
def initRequestStore : RequestStore := ⟨0, 0⟩

/-- An inbound envelope: sender stamp plus decoded payload. -/
structure Envelope (α : Type) where
  senderStamp : ℕ
  msg : α
deriving DecidableEq

/-- Payload of `opendlv::proxy::GroundMotionRequest`. -/
structure GroundMotionRequest where
  vx : ℚ
  yawRate : ℚ
deriving DecidableEq

/-- Payload of `opendlv::proxy::SwitchStateRequest`. -/
structure SwitchStateRequest where
  state : ℤ
deriving DecidableEq

/-- Payload of `opendlv::proxy::PedalPositionRequest`, the emitted
actuator command. -/
structure PedalPositionRequest where
  position : ℚ
deriving DecidableEq

/-- One call to `od4.send(msg, ts, senderStamp)`. -/
structure SentMessage where
  msg : PedalPositionRequest
  ts : ℕ
  senderStamp : ℕ
deriving DecidableEq

/-- The motion handler `onGroundMotionRequest` of lines 66-85: when the
envelope sender stamp equals the configured input stamp, the store is
overwritten with the `vx` and `yawRate` of the message; otherwise the
envelope is ignored and the store is unchanged. The verbose printout has
no effect on the store. -/
def onGroundMotionRequest (senderStampInput : ℕ)
    (envelope : Envelope GroundMotionRequest) (store : RequestStore) :
    RequestStore :=
  if envelope.senderStamp = senderStampInput then
    { vxRequest := envelope.msg.vx, yawRateRequest := envelope.msg.yawRate }
  else
    store

/-- The state handler `onSwitchStateRequest` of lines 87-101: when the
envelope sender stamp equals the hard-coded `99`, the stored state is
overwritten with the `state` of the message; otherwise it is unchanged. -/
def onSwitchStateRequest (envelope : Envelope SwitchStateRequest)
    (state : ℤ) : ℤ :=
  if envelope.senderStamp = 99 then envelope.msg.state else state

/-- The wheel-speed computation of lines 121-122:
`vl = vxRequest - yawRateRequest * trackWidth` and
`vr = vxRequest + yawRateRequest * trackWidth`. -/
def wheelSpeeds (vxRequest yawRateRequest trackWidth : ℚ) : ℚ × ℚ :=
  (vxRequest - yawRateRequest * trackWidth,
   vxRequest + yawRateRequest * trackWidth)

/-- The per-side pedal-position computation of lines 128-132 (and,
identically, lines 138-142): divide the wheel speed by `speedMax`, then
replace any quotient strictly above `1.0f` by `0.99f`, then replace any
resulting value strictly below `-1.0f` by `-0.99f`. -/
def saturate (v speedMax : ℚ) : ℚ :=
  let p0 := v / speedMax
  let p1 := if p0 > 1 then 99 / 100 else p0
  if p1 < -1 then -(99 / 100) else p1

/-- The periodic callback `atFrequency` of lines 103-155, evaluated on a
snapshot of the two stores. It returns the list of messages passed to
`od4.send`, in call order, paired with the boolean the callback returns
to the scheduler. `ts` models the single `cluon::time::now()` of
line 124, used for both sends. -/
def atFrequency (cfg : Config) (store : RequestStore) (state : ℤ)
    (ts : ℕ) : List SentMessage × Bool :=
  if state = 1 then
    ([], true)
  else
    let vl := (wheelSpeeds store.vxRequest store.yawRateRequest cfg.trackWidth).1
    let vr := (wheelSpeeds store.vxRequest store.yawRateRequest cfg.trackWidth).2
    let pedalPositionLeft := saturate vl cfg.speedMax
    let pedalPositionRight := saturate vr cfg.speedMax
    ([⟨⟨pedalPositionLeft⟩, ts, cfg.senderStampLeft⟩,
      ⟨⟨pedalPositionRight⟩, ts, cfg.senderStampRight⟩], true)

/-- The command-line arguments after `cluon::getCommandlineArguments` and
numeric parsing: one optional parsed value per recognised key (a key
absent from the command line is `none`). The `--verbose` flag only
controls diagnostic printing and is omitted. -/
structure Args where
  cid : Option ℤ
  freq : Option ℤ
  speedMax : Option ℚ
  trackWidth : Option ℚ
  idInput : Option ℕ
  idLeft : Option ℕ
  idRight : Option ℕ
deriving DecidableEq

/-- The startup validation and configuration build of `main`
(lines 28-57): if any of `cid`, `freq`, `speed-max`, `track-width` is
missing, the usage text is printed and the process returns with
`retCode = 1` (modelled as `none`); otherwise the configuration is built,
the optional sender stamps defaulting to `0`, `0` and `1`
(lines 42-50). The parsed value of `speed-max` is stored without further
inspection (line 54). -/
def mainStartup (a : Args) : Option Config :=
  if a.cid.isSome ∧ a.freq.isSome ∧ a.speedMax.isSome ∧ a.trackWidth.isSome
  then
    some { trackWidth := a.trackWidth.getD 0
           speedMax := a.speedMax.getD 0
           senderStampInput := a.idInput.getD 0
           senderStampLeft := a.idLeft.getD 0
           senderStampRight := a.idRight.getD 1 }
  else
    none

/-- Helper: the two branches of `saturate` keep the result inside the
closed interval `[-1, 1]`. -/
theorem saturate_mem_Icc (v speedMax : ℚ) :
    -1 ≤ saturate v speedMax ∧ saturate v speedMax ≤ 1 := by
  simp only [saturate]
  split_ifs with h1 h2 h3 <;> constructor <;> norm_num at * <;> linarith

/-- Claim C1: for every forward velocity, yaw rate and track-width scale
factor, a non-suppressed tick of the periodic emitter computes the wheel
speeds `vl = v - ω·h` and `vr = v + ω·h` and emits their saturations, left
then right. -/
theorem kinematics_correct (cfg : Config) (store : RequestStore)
    (state : ℤ) (ts : ℕ) (h : state ≠ 1) :
    ((atFrequency cfg store state ts).1.map fun m => m.msg.position) =
      [saturate (store.vxRequest - store.yawRateRequest * cfg.trackWidth)
          cfg.speedMax,
       saturate (store.vxRequest + store.yawRateRequest * cfg.trackWidth)
          cfg.speedMax] := by
  unfold atFrequency
  rw [if_neg h]
  rfl

/-- Witness for `kinematics_correct` at a concrete input. -/
theorem kinematics_correct_witness :
    ((atFrequency ⟨1, 2, 0, 0, 1⟩ ⟨3, 4⟩ 0 0).1.map fun m =>
        m.msg.position) =
      [saturate (3 - 4 * 1) 2, saturate (3 + 4 * 1) 2] :=
  kinematics_correct ⟨1, 2, 0, 0, 1⟩ ⟨3, 4⟩ 0 0 (by decide)

/-- Claim C2: `saturate v m` is `v/m` whenever `v/m` lies in `[-1, 1]`,
is exactly `0.99` whenever `v/m > 1`, and is exactly `-0.99` whenever
`v/m < -1`. -/
theorem saturation_boundary (v m : ℚ) :
    (-1 ≤ v / m → v / m ≤ 1 → saturate v m = v / m) ∧
    (1 < v / m → saturate v m = 99 / 100) ∧
    (v / m < -1 → saturate v m = -(99 / 100)) := by
  simp only [saturate]
  refine ⟨fun hlo hhi => ?_, fun hgt => ?_, fun hlt => ?_⟩
  · rw [if_neg (not_lt.mpr hhi), if_neg (not_lt.mpr hlo)]
  · rw [if_pos hgt, if_neg (by norm_num)]
  · rw [if_neg (not_lt.mpr (le_of_lt (lt_trans hlt (by norm_num)))),
      if_pos hlt]

/-- Witness for `saturation_boundary`: the in-range, overflow and
underflow cases each evaluated at a concrete input. -/
theorem saturation_boundary_witness :
    saturate 1 2 = 1 / 2 ∧ saturate 3 2 = 99 / 100 ∧
      saturate (-3) 2 = -(99 / 100) :=
  ⟨(saturation_boundary 1 2).1 (by norm_num) (by norm_num),
   (saturation_boundary 3 2).2.1 (by norm_num),
   (saturation_boundary (-3) 2).2.2 (by norm_num)⟩

/-- Claim C3 counterexample: with `speedMax = 2` and a stored command of
`vx = 2, yawRate = 0`, the quotient is exactly `1`, which neither branch
of the saturation rewrites (they only fire on strict overflow), so an
emitted position equals `1.0`. The claim that every emitted position is
strictly bounded away from `±1.0` is therefore false. -/
theorem position_not_strictly_inside_counterexample :
    ¬ (∀ m ∈ (atFrequency ⟨1, 2, 0, 0, 1⟩ ⟨2, 0⟩ 0 0).1,
        m.msg.position ≠ 1 ∧ m.msg.position ≠ -1) := by
  intro h
  have hmem : (⟨⟨1⟩, 0, 0⟩ : SentMessage) ∈
      (atFrequency ⟨1, 2, 0, 0, 1⟩ ⟨2, 0⟩ 0 0).1 := by
    have : atFrequency ⟨1, 2, 0, 0, 1⟩ ⟨2, 0⟩ 0 0 =
        ([⟨⟨1⟩, 0, 0⟩, ⟨⟨1⟩, 0, 1⟩], true) := by
      simp only [atFrequency, wheelSpeeds, saturate]
      norm_num
    rw [this]
    exact List.mem_cons_self _ _
  exact (h _ hmem).1 rfl

/-- Claim C3 amended: every emitted position lies in the closed interval
`[-1, 1]`; the boundary values `±1.0` themselves are reachable. The
`speedMax ≠ 0` hypothesis marks where the rational model replaces the
IEEE division by zero of the source. -/
theorem position_in_closed_unit_interval (cfg : Config)
    (store : RequestStore) (state : ℤ) (ts : ℕ)
    (hm : cfg.speedMax ≠ 0) :
    ∀ m ∈ (atFrequency cfg store state ts).1,
      -1 ≤ m.msg.position ∧ m.msg.position ≤ 1 := by
  intro m hmem
  unfold atFrequency at hmem
  split at hmem
  · simp at hmem
  · rcases List.mem_cons.mp hmem with hl | hmem
    · subst hl
      exact saturate_mem_Icc _ _
    rcases List.mem_cons.mp hmem with hr | hmem
    · subst hr
      exact saturate_mem_Icc _ _
    · simp at hmem

/-- Witness for `position_in_closed_unit_interval` at a concrete input. -/
theorem position_in_closed_unit_interval_witness :
    (2 : ℚ) ≠ 0 ∧
      ∀ m ∈ (atFrequency ⟨1, 2, 0, 0, 1⟩ ⟨2, 0⟩ 0 0).1,
        -1 ≤ m.msg.position ∧ m.msg.position ≤ 1 :=
  ⟨by norm_num,
   position_in_closed_unit_interval ⟨1, 2, 0, 0, 1⟩ ⟨2, 0⟩ 0 0 (by norm_num)⟩

/-- Claim C4: when the stored state equals `1`, the periodic callback
sends nothing and returns `true` to keep the schedule running, whatever
the configuration and stored motion command. -/
theorem gate_suppression (cfg : Config) (store : RequestStore) (ts : ℕ) :
    atFrequency cfg store 1 ts = ([], true) := by
  simp [atFrequency]

/-- Claim C5: when the stored state differs from `1`, the periodic
callback returns `true` and sends exactly two messages, both stamped with
the single timestamp of the tick, the first tagged with the left output
identity and the second with the right one. -/
theorem gate_pass_through (cfg : Config) (store : RequestStore)
    (state : ℤ) (ts : ℕ) (h : state ≠ 1) :
    (atFrequency cfg store state ts).2 = true ∧
    (atFrequency cfg store state ts).1.length = 2 ∧
    ((atFrequency cfg store state ts).1.map fun m => m.ts) = [ts, ts] ∧
    ((atFrequency cfg store state ts).1.map fun m => m.senderStamp) =
      [cfg.senderStampLeft, cfg.senderStampRight] := by
  unfold atFrequency
  rw [if_neg h]
  exact ⟨rfl, rfl, rfl, rfl⟩

/-- Witness for `gate_pass_through` at a concrete input. -/
theorem gate_pass_through_witness :
    (atFrequency ⟨1, 2, 0, 0, 1⟩ ⟨3, 4⟩ 0 5).2 = true ∧
    (atFrequency ⟨1, 2, 0, 0, 1⟩ ⟨3, 4⟩ 0 5).1.length = 2 ∧
    ((atFrequency ⟨1, 2, 0, 0, 1⟩ ⟨3, 4⟩ 0 5).1.map fun m => m.ts) =
      [5, 5] ∧
    ((atFrequency ⟨1, 2, 0, 0, 1⟩ ⟨3, 4⟩ 0 5).1.map fun m =>
        m.senderStamp) = [0, 1] :=
  gate_pass_through ⟨1, 2, 0, 0, 1⟩ ⟨3, 4⟩ 0 5 (by decide)

/-- Claim C6 counterexample: with `cid`, `freq`, `speed-max` and
`track-width` all present and `speed-max` parsing to `0`, startup does not
take the usage-and-exit branch; it builds a configuration with
`speedMax = 0` and enters operation. The claim that a zero maximum speed
is fatal at startup is therefore false: the validation of lines 28-31
only tests the presence of the four keys, never the parsed value. -/
theorem zero_speed_max_accepted_counterexample :
    (⟨some 111, some 10, some 0, some 1, none, none, none⟩ : Args).speedMax
        = some 0 ∧
    mainStartup ⟨some 111, some 10, some 0, some 1, none, none, none⟩ =
      some ⟨1, 0, 0, 0, 1⟩ := by
  constructor
  · rfl
  · rfl

/-- Claim C6 amended: the usage-and-exit path triggers only on a missing
required parameter; a present `speed-max` that parses to zero passes
validation and the process enters operation with `speedMax = 0`. -/
theorem zero_speed_max_enters_operation (a : Args)
    (hc : a.cid.isSome) (hf : a.freq.isSome) (ht : a.trackWidth.isSome)
    (hs : a.speedMax = some 0) :
    ∃ cfg, mainStartup a = some cfg ∧ cfg.speedMax = 0 := by
  refine ⟨⟨a.trackWidth.getD 0, 0, a.idInput.getD 0, a.idLeft.getD 0,
    a.idRight.getD 1⟩, ?_, rfl⟩
  unfold mainStartup
  rw [if_pos ⟨hc, hf, by rw [hs]; rfl, ht⟩, hs]
  rfl

/-- Witness for `zero_speed_max_enters_operation` at a concrete input. -/
theorem zero_speed_max_enters_operation_witness :
    ∃ cfg, mainStartup ⟨some 111, some 10, some 0, some 1,
        none, none, none⟩ = some cfg ∧ cfg.speedMax = 0 :=
  zero_speed_max_enters_operation
    ⟨some 111, some 10, some 0, some 1, none, none, none⟩
    (by decide) (by decide) (by decide) rfl

/-- Claim C7: a motion envelope whose sender stamp differs from the
configured input stamp leaves the command store unchanged. -/
theorem source_filtering (senderStampInput : ℕ)
    (envelope : Envelope GroundMotionRequest) (store : RequestStore)
    (h : envelope.senderStamp ≠ senderStampInput) :
    onGroundMotionRequest senderStampInput envelope store = store := by
  unfold onGroundMotionRequest
  rw [if_neg h]

/-- Witness for `source_filtering` at a concrete input. -/
theorem source_filtering_witness :
    onGroundMotionRequest 0 ⟨7, ⟨5, 6⟩⟩ ⟨1, 2⟩ = ⟨1, 2⟩ :=
  source_filtering 0 ⟨7, ⟨5, 6⟩⟩ ⟨1, 2⟩ (by decide)

/-- Claim C8: the state handler overwrites the stored state exactly when
the envelope sender stamp equals the fixed reserved identity `99`; any
other sender stamp leaves the stored state unchanged. -/
theorem state_filtering (envelope : Envelope SwitchStateRequest)
    (state : ℤ) :
    (envelope.senderStamp = 99 →
      onSwitchStateRequest envelope state = envelope.msg.state) ∧
    (envelope.senderStamp ≠ 99 →
      onSwitchStateRequest envelope state = state) := by
  unfold onSwitchStateRequest
  constructor
  · intro h
    rw [if_pos h]
  · intro h
    rw [if_neg h]

/-- Witness for `state_filtering`: the matching and the non-matching case
each evaluated at a concrete input. -/
theorem state_filtering_witness :
    onSwitchStateRequest ⟨99, ⟨7⟩⟩ 0 = 7 ∧
      onSwitchStateRequest ⟨3, ⟨7⟩⟩ 0 = 0 :=
  ⟨(state_filtering ⟨99, ⟨7⟩⟩ 0).1 rfl,
   (state_filtering ⟨3, ⟨7⟩⟩ 0).2 (by decide)⟩

/-- Claim C9: two successive matching motion envelopes leave the store
holding exactly the second envelope, and the next tick computed from
that store equals the tick computed from the second envelope alone. -/
theorem overwrite_semantics (inp : ℕ)
    (e1 e2 : Envelope GroundMotionRequest) (store : RequestStore)
    (h1 : e1.senderStamp = inp) (h2 : e2.senderStamp = inp) :
    onGroundMotionRequest inp e2 (onGroundMotionRequest inp e1 store) =
      ⟨e2.msg.vx, e2.msg.yawRate⟩ ∧
    ∀ cfg state ts,
      atFrequency cfg
          (onGroundMotionRequest inp e2
            (onGroundMotionRequest inp e1 store)) state ts =
        atFrequency cfg ⟨e2.msg.vx, e2.msg.yawRate⟩ state ts := by
  have hset : onGroundMotionRequest inp e2
      (onGroundMotionRequest inp e1 store) =
        ⟨e2.msg.vx, e2.msg.yawRate⟩ := by
    unfold onGroundMotionRequest
    rw [if_pos h2]
  exact ⟨hset, fun cfg state ts => by rw [hset]⟩

/-- Witness for `overwrite_semantics` at a concrete input: the update
`(1, 0)` followed by `(2, 0)` leaves only `(2, 0)` visible. -/
theorem overwrite_semantics_witness :
    onGroundMotionRequest 0 ⟨0, ⟨2, 0⟩⟩
        (onGroundMotionRequest 0 ⟨0, ⟨1, 0⟩⟩ initRequestStore) =
      ⟨2, 0⟩ ∧
    atFrequency ⟨1, 2, 0, 0, 1⟩
        (onGroundMotionRequest 0 ⟨0, ⟨2, 0⟩⟩
          (onGroundMotionRequest 0 ⟨0, ⟨1, 0⟩⟩ initRequestStore)) 0 5 =
      atFrequency ⟨1, 2, 0, 0, 1⟩ ⟨2, 0⟩ 0 5 :=
  ⟨(overwrite_semantics 0 ⟨0, ⟨1, 0⟩⟩ ⟨0, ⟨2, 0⟩⟩ initRequestStore
      rfl rfl).1,
   (overwrite_semantics 0 ⟨0, ⟨1, 0⟩⟩ ⟨0, ⟨2, 0⟩⟩ initRequestStore
      rfl rfl).2 ⟨1, 2, 0, 0, 1⟩ 0 5⟩

/-- Claim C10: the command store starts as `vx = 0, yawRate = 0`, and a
non-suppressed tick on the initial store with a nonzero maximum speed
emits position `0` for both sides. -/
theorem initial_tick_emits_zero (cfg : Config) (state : ℤ) (ts : ℕ)
    (hm : cfg.speedMax ≠ 0) (hs : state ≠ 1) :
    initRequestStore = ⟨0, 0⟩ ∧
    ((atFrequency cfg initRequestStore state ts).1.map fun m =>
        m.msg.position) = [0, 0] := by
  refine ⟨rfl, ?_⟩
  unfold atFrequency
  rw [if_neg hs]
  have hsat : saturate 0 cfg.speedMax = 0 := by
    simp only [saturate]
    rw [zero_div, if_neg (by norm_num), if_neg (by norm_num)]
  simp only [initRequestStore, wheelSpeeds, List.map]
  norm_num [hsat]

/-- Witness for `initial_tick_emits_zero` at a concrete input. -/
theorem initial_tick_emits_zero_witness :
    initRequestStore = ⟨0, 0⟩ ∧
    ((atFrequency ⟨1, 2, 0, 0, 1⟩ initRequestStore 0 5).1.map fun m =>
        m.msg.position) = [0, 0] :=
  initial_tick_emits_zero ⟨1, 2, 0, 0, 1⟩ 0 5 (by norm_num) (by decide)

end DiffSteer
